import Mathlib

/-!
Shallow embedding of the voting-system repository (Flask + SQLite school
voting kiosk) and verification of the frozen claims about it.

Modelling conventions:
  * SQLite timestamps (local-time strings compared by `datetime(...)`) are
    modelled as `Nat`; string comparison of the stored format is
    chronological, so `Nat` order is faithful.
  * AUTOINCREMENT primary keys are modelled by `length + 1` of the table at
    insertion time; ids therefore increase with creation order, as they do
    under SQLite AUTOINCREMENT.
  * Each table is a list of rows; a `DB` value is the whole store.
  * The itsdangerous `URLSafeTimedSerializer` is modelled by a wire type:
    a token is either a malformed blob or a signed record carrying the
    payload, the embedded issuance timestamp and a signature; the signature
    of an honestly issued token is computed from the secret key, the payload
    and the timestamp, and verification recomputes and compares it, then
    checks the age, exactly in the order `unsign` does (signature first,
    then expiry, with expiry failing when `age > max_age`).
  * Python truthiness of the optional option labels (`if session['option_c']:`)
    is modelled by `truthy`: `none` and the empty string are falsy.
-/

namespace Voting

/-- config.py: signed vote token lifespan in seconds. -/
def TOKEN_MAX_AGE : Nat := 300

/-- config.py: minimum seconds between automatic background Sheets syncs. -/
def SHEETS_SYNC_DEBOUNCE : Nat := 30

/-- A row of the `sessions` table (database.py schema). -/
structure Session where
  id : Nat
  question : String
  option_a : String
  option_b : String
  option_c : Option String
  option_d : Option String
  start_time : Nat
  end_time : Nat
  created_at : Nat
  is_active : Bool
deriving Repr, DecidableEq

/-- A row of the `cards` table. -/
structure Card where
  id : Nat
  uid : String
  label : Option String
  enrolled_at : Nat
  is_active : Bool
deriving Repr, DecidableEq

/-- A row of the `votes` table.  Note the schema: (id, session_id, option,
voted_at) — there is no card-UID column. -/
structure Vote where
  id : Nat
  session_id : Nat
  voteOption : String
  voted_at : Nat
deriving Repr, DecidableEq

/-- A row of the `vote_tracker` table; `UNIQUE(session_id, card_uid)`. -/
structure TrackerEntry where
  id : Nat
  session_id : Nat
  card_uid : String
  voted_at : Nat
deriving Repr, DecidableEq

/-- The persistent store: all tables of database.py's schema that the core
touches. -/
structure DB where
  sessions : List Session
  cards : List Card
  votes : List Vote
  vote_tracker : List TrackerEntry
  settings : List (String × String)
deriving Repr, DecidableEq

/-- database.py `get_active_session`'s WHERE clause: `is_active = 1 AND
datetime('now') BETWEEN datetime(start_time) AND datetime(end_time)`
(SQLite BETWEEN is inclusive on both bounds). -/
def session_open (s : Session) (now : Nat) : Bool :=
  s.is_active && decide (s.start_time ≤ now) && decide (now ≤ s.end_time)

/-- `ORDER BY id DESC LIMIT 1` over a set of rows: the row with the largest
id, or none if empty. -/
def maxById : List Session → Option Session
  | [] => none
  | s :: rest =>
    match maxById rest with
    | none => some s
    | some t => if t.id < s.id then some s else some t

/-- database.py `get_active_session`: the session currently open for voting,
or none; ties between several qualifying rows are broken by largest id
(AUTOINCREMENT ids grow with creation order, so this is the most recently
created row). -/
def get_active_session (db : DB) (now : Nat) : Option Session :=
  maxById (db.sessions.filter (fun s => session_open s now))

/-- database.py `get_session`: lookup by primary key. -/
def get_session (db : DB) (session_id : Nat) : Option Session :=
  db.sessions.find? (fun s => s.id == session_id)

/-- database.py `card_is_registered`: the card exists and is active. -/
def card_is_registered (db : DB) (uid : String) : Bool :=
  db.cards.any (fun c => c.uid == uid && c.is_active)

/-- database.py `card_exists`: the card exists, active or not. -/
def card_exists (db : DB) (uid : String) : Bool :=
  db.cards.any (fun c => c.uid == uid)

/-- database.py `card_has_voted`: a vote_tracker row for (session, uid)
exists. -/
def card_has_voted (db : DB) (uid : String) (session_id : Nat) : Bool :=
  db.vote_tracker.any (fun e => e.session_id == session_id && e.card_uid == uid)

/-- database.py `record_vote`: `INSERT OR IGNORE` into vote_tracker; if the
row already existed (rowcount 0) return False with no writes, otherwise
append the anonymized vote row inside the same transaction and return True.
`now` stands for SQLite's `datetime('now', 'localtime')` default. -/
def record_vote (db : DB) (session_id : Nat) (card_uid : String)
    (voteOption : String) (now : Nat) : Bool × DB :=
  if db.vote_tracker.any (fun e => e.session_id == session_id && e.card_uid == card_uid) then
    (false, db)
  else
    (true,
      { db with
        vote_tracker := db.vote_tracker ++
          [⟨db.vote_tracker.length + 1, session_id, card_uid, now⟩],
        votes := db.votes ++
          [⟨db.votes.length + 1, session_id, voteOption, now⟩] })

/-- Python truthiness of an optional TEXT column: NULL and the empty string
are falsy. -/
def truthy : Option String → Bool
  | some s => !(s == "")
  | none => false

/-- database.py `get_vote_counts`: the option keys defined for a session —
A and B always, C and D only when their labels are truthy. -/
def defined_options (s : Session) : List String :=
  ["A", "B"] ++ (if truthy s.option_c then ["C"] else [])
    ++ (if truthy s.option_d then ["D"] else [])

/-- The label `session[f'option_{opt.lower()}']` for an option key. -/
def option_label (s : Session) (k : String) : String :=
  if k == "A" then s.option_a
  else if k == "B" then s.option_b
  else if k == "C" then s.option_c.getD ""
  else s.option_d.getD ""

/-- `counts_raw.get(opt, 0)`: votes for this session grouped by option. -/
def count_option (db : DB) (session_id : Nat) (k : String) : Nat :=
  (db.votes.filter (fun v => v.session_id == session_id && v.voteOption == k)).length

/-- database.py `get_vote_counts`: `{}` for a missing session, otherwise an
ordered map from each defined option key to its label and count (options
with zero votes included; vote rows with undefined option letters are not
counted anywhere). -/
def get_vote_counts (db : DB) (session_id : Nat) : List (String × String × Nat) :=
  match get_session db session_id with
  | none => []
  | some s =>
    (defined_options s).map (fun k => (k, option_label s k, count_option db session_id k))

/-- database.py `get_total_votes`: COUNT of vote rows for the session. -/
def get_total_votes (db : DB) (session_id : Nat) : Nat :=
  (db.votes.filter (fun v => v.session_id == session_id)).length

/-- Insertion step for the `ORDER BY voted_at` modelling. -/
def insertByVotedAt (v : Vote) : List Vote → List Vote
  | [] => [v]
  | w :: rest =>
    if v.voted_at ≤ w.voted_at then v :: w :: rest else w :: insertByVotedAt v rest

/-- Sort of the vote rows by `voted_at` (models `ORDER BY voted_at`). -/
def sortByVotedAt : List Vote → List Vote
  | [] => []
  | v :: rest => insertByVotedAt v (sortByVotedAt rest)

/-- database.py `get_all_votes_for_export`: `SELECT voted_at, option FROM
votes WHERE session_id=? ORDER BY voted_at` — only the timestamp and the
option letter of each row, no card UIDs. -/
def get_all_votes_for_export (db : DB) (session_id : Nat) : List (Nat × String) :=
  (sortByVotedAt (db.votes.filter (fun v => v.session_id == session_id))).map
    (fun v => (v.voted_at, v.voteOption))

/-- database.py `get_setting`. -/
def get_setting (db : DB) (key : String) : Option String :=
  (db.settings.find? (fun kv => kv.1 == key)).map (fun kv => kv.2)

/-! ## Token codec (app.py `make_token` / `verify_token`, nfc_reader.py
issuance; itsdangerous `URLSafeTimedSerializer` modelled as a wire type) -/

/-- The payload serialized into a capability token:
`{'uid': uid, 'session_id': session['id']}`. -/
structure TokenPayload where
  uid : String
  session_id : Nat
deriving Repr, DecidableEq

/-- Injective-enough encoding of a string as a Nat, for building the
modelled signature. -/
def encodeString (s : String) : Nat :=
  s.data.foldl (fun a c => a * 1114112 + c.toNat + 1) 1

/-- The HMAC of the serializer, modelled as a concrete keyed function of
payload and timestamp: verification recomputes it and compares. -/
def mkSig (key : Nat) (p : TokenPayload) (ts : Nat) : Nat :=
  Nat.pair key (Nat.pair (Nat.pair (encodeString p.uid) p.session_id) ts)

/-- A well-formed signed token: payload, embedded issuance timestamp,
attached signature. -/
structure SignedToken where
  payload : TokenPayload
  ts : Nat
  sig : Nat
deriving Repr, DecidableEq

/-- What an arbitrary input string deserializes to: either a malformed blob
(no recoverable signed structure — its signature check fails) or a signed
record. -/
inductive TokenWire where
  | malformed (raw : String)
  | signed (t : SignedToken)
deriving Repr, DecidableEq

/-- The exceptions `URLSafeTimedSerializer.loads` raises that app.py
catches. -/
inductive LoadError where
  | badSignature
  | signatureExpired
deriving Repr, DecidableEq

/-- itsdangerous `loads(token, max_age=...)`: check the signature first,
then the age; expiry is strict (`age > max_age` raises SignatureExpired). -/
def serializer_loads (key maxAge now : Nat) (w : TokenWire) :
    Except LoadError TokenPayload :=
  match w with
  | .malformed _ => .error .badSignature
  | .signed t =>
    if t.sig = mkSig key t.payload t.ts then
      if now - t.ts > maxAge then .error .signatureExpired
      else .ok t.payload
    else .error .badSignature

/-- app.py `make_token` (and the identical issuance in nfc_reader.py):
`URLSafeTimedSerializer(SECRET_KEY).dumps(data)` — sign the payload with
the current timestamp embedded. -/
def make_token (key now : Nat) (p : TokenPayload) : TokenWire :=
  .signed ⟨p, now, mkSig key p now⟩

/-- app.py `verify_token`: `loads(token, max_age=TOKEN_MAX_AGE)`, catching
`(BadSignature, SignatureExpired)` and returning None — a total function
into `Option`, never an escaping exception. -/
def verify_token (key maxAge now : Nat) (w : TokenWire) : Option TokenPayload :=
  match serializer_loads key maxAge now w with
  | .ok p => some p
  | .error _ => none

/-! ## Card gate (nfc_reader.py `NFCReaderThread._process_scan`) -/

/-- The Socket.IO events `_process_scan` can emit. -/
inductive Event where
  | card_scan_raw (uid : String) (already_enrolled : Bool)
  | card_error (message : String)
  | card_valid (tok : TokenWire)
deriving Repr, DecidableEq

/-- nfc_reader.py `_process_scan`: always emit the raw-scan event to the
admin channel, then evaluate the three gates in order — session open, card
registered, not already voted — short-circuiting on the first failure; on
full success issue a signed token and emit the authorization event with the
redemption URL.  Only read helpers are called, so the store is returned
unchanged. -/
def process_scan (db : DB) (key now : Nat) (uid : String) : List Event × DB :=
  let raw := Event.card_scan_raw uid (card_exists db uid)
  match get_active_session db now with
  | none => ([raw, Event.card_error "Voting is not open right now."], db)
  | some s =>
    if !(card_is_registered db uid) then
      ([raw, Event.card_error "Card not registered. Please see an administrator."], db)
    else if card_has_voted db uid s.id then
      ([raw, Event.card_error "You have already voted this week!"], db)
    else
      ([raw, Event.card_valid (make_token key now ⟨uid, s.id⟩)], db)

/-! ## Web routes (app.py `vote` and `submit_vote`) -/

/-- The page a kiosk route resolves to (redirects to the error page are
represented by the error message key). -/
inductive Page where
  | errorPage (msg : String)
  | votePage (sessionId : Nat) (tok : TokenWire)
  | thankyou (sessionId : Nat)
deriving Repr, DecidableEq

/-- app.py `_build_options`: list of (key, label) pairs for a session row. -/
def build_options (s : Session) : List (String × String) :=
  [("A", s.option_a), ("B", s.option_b)]
    ++ (if truthy s.option_c then [("C", s.option_c.getD "")] else [])
    ++ (if truthy s.option_d then [("D", s.option_d.getD "")] else [])

/-- app.py route `/vote/<token>` (the ballot-render step): verify the
token, then require the *active* session to match the token's session id,
then require the card not to have voted. -/
def vote_route (db : DB) (key maxAge now : Nat) (tok : TokenWire) : Page :=
  match verify_token key maxAge now tok with
  | none => Page.errorPage "token_expired"
  | some data =>
    match get_active_session db now with
    | none => Page.errorPage "session_changed"
    | some active =>
      if !(active.id == data.session_id) then Page.errorPage "session_changed"
      else if card_has_voted db data.uid active.id then Page.errorPage "already_voted"
      else Page.votePage active.id tok

/-- Python `str.upper()`, modelled as a character-wise map (kernel-reducible,
unlike `String.toUpper`). -/
def str_upper (s : String) : String := ⟨s.data.map Char.toUpper⟩

/-- app.py route `/submit-vote` (the final redemption step): empty form
fields → invalid_request; invalid token → token_expired; the token's
session row missing → session_not_found; option not among the session's
defined keys → invalid_option; otherwise `record_vote` decides success or
already_voted.  Note: this path looks the session up by the token's id
(`get_session`), it does not consult `get_active_session`. -/
def submit_vote (db : DB) (key maxAge now : Nat) (tokenField : Option TokenWire)
    (optionField : String) : Page × DB :=
  let chosen := str_upper optionField
  match tokenField with
  | none => (Page.errorPage "invalid_request", db)
  | some tok =>
    if chosen == "" then (Page.errorPage "invalid_request", db)
    else
      match verify_token key maxAge now tok with
      | none => (Page.errorPage "token_expired", db)
      | some data =>
        match get_session db data.session_id with
        | none => (Page.errorPage "session_not_found", db)
        | some vs =>
          if ((build_options vs).map (fun kv => kv.1)).contains chosen then
            let r := record_vote db data.session_id data.uid chosen now
            if r.1 then (Page.thankyou data.session_id, r.2)
            else (Page.errorPage "already_voted", r.2)
          else (Page.errorPage "invalid_option", db)

/-! ## Sheets sync (sheets_sync.py) -/

/-- The process environment the sync code probes: whether the gspread
library imported, whether the credentials file exists (and its configured
path), and whether the external service is reachable (with the exception
message `str(exc)` produced when it is not). -/
structure SheetsEnv where
  sheetsAvailable : Bool
  credentialsExist : Bool
  credentialsPath : String
  reachable : Bool
  failMsg : String
deriving Repr, DecidableEq

/-- The module-level `_last_sync_time` guarded by `_debounce_lock`. -/
structure SyncState where
  lastSyncTime : Nat
deriving Repr, DecidableEq

/-- The result dict a sync call returns: `{'success': ..., 'error': ...}`
or `{'success': True, 'total': ...}`. -/
structure SyncResult where
  success : Bool
  error : Option String
  total : Option Nat
deriving Repr, DecidableEq

/-- The `total` reported on success:
`sum(v['count'] for v in vote_counts.values())`. -/
def sync_total (db : DB) (session_id : Nat) : Nat :=
  ((get_vote_counts db session_id).map (fun e => e.2.2)).sum

/-- The body of the `try` block: reach the external service and overwrite
the Summary and Detail tabs, or raise (modelled as `Except.error` with the
exception message). -/
def perform_sheet_writes (env : SheetsEnv) (db : DB) (session_id : Nat) :
    Except String Nat :=
  if env.reachable then Except.ok (sync_total db session_id)
  else Except.error env.failMsg

/-- sheets_sync.py `_do_sync`: library check, debounce check (skipped when
forced; a passing check stamps `_last_sync_time = now`), settings checks,
credentials check, then the guarded external write.  The returned `Nat`
counts external write attempts made by the call (0 on every early return,
1 when the `try` block runs). -/
def do_sync (st : SyncState) (env : SheetsEnv) (db : DB) (session_id now : Nat)
    (force : Bool) : SyncState × SyncResult × Nat :=
  if env.sheetsAvailable = false then
    (st, ⟨false, some "gspread library not installed", none⟩, 0)
  else if force = false ∧ now - st.lastSyncTime < SHEETS_SYNC_DEBOUNCE then
    (st, ⟨false, some "Debounced", none⟩, 0)
  else
    let st1 : SyncState := if force then st else ⟨now⟩
    if (get_setting db "sheets_enabled" == some "1") = false then
      (st1, ⟨false, some "Sheets sync is disabled in settings", none⟩, 0)
    else if ((get_setting db "sheets_spreadsheet_id").getD "") == "" then
      (st1, ⟨false, some "No Spreadsheet ID configured in settings", none⟩, 0)
    else if env.credentialsExist = false then
      (st1, ⟨false, some ("Credentials file not found: " ++ env.credentialsPath), none⟩, 0)
    else
      match perform_sheet_writes env db session_id with
      | Except.ok total => (st1, ⟨true, none, some total⟩, 1)
      | Except.error e => (st1, ⟨false, some e, none⟩, 1)

/-- sheets_sync.py `sync_to_sheets`: the fire-and-forget automatic path —
`_do_sync(session_id, force=False)` on a daemon thread. -/
def sync_to_sheets (st : SyncState) (env : SheetsEnv) (db : DB)
    (session_id now : Nat) : SyncState × SyncResult × Nat :=
  do_sync st env db session_id now false

/-- sheets_sync.py `sync_to_sheets_blocking`: reset `_last_sync_time` to 0
under the lock, then run `_do_sync(session_id, force=True)` synchronously. -/
def sync_to_sheets_blocking (st : SyncState) (env : SheetsEnv) (db : DB)
    (session_id now : Nat) : SyncState × SyncResult × Nat :=
  do_sync ⟨0⟩ env db session_id now true

/-! ## Derived counting helper and concrete instances used to evaluate the
theorems on closed inputs -/

/-- Number of vote_tracker rows for a given (session, uid) pair. -/
def tracker_count (db : DB) (session_id : Nat) (card_uid : String) : Nat :=
  (db.vote_tracker.filter
    (fun e => e.session_id == session_id && e.card_uid == card_uid)).length

/-- A store with all tables empty. -/
def emptyDB : DB := ⟨[], [], [], [], []⟩

/-- An enrolled, active card with UID "U". -/
def exCard : Card := ⟨1, "U", none, 0, true⟩

/-- A session open over [0, 200], created first (id 1). -/
def c3sA : Session := ⟨1, "Qa", "Yes", "No", none, none, 0, 200, 0, true⟩

/-- A session open over [50, 300], created later (id 2); its window overlaps
c3sA's. -/
def c3sB : Session := ⟨2, "Qb", "Up", "Down", none, none, 50, 300, 50, true⟩

/-- A store holding two overlapping active sessions. -/
def c3db : DB := ⟨[c3sA, c3sB], [], [], [], []⟩

/-- A single open session for the scan-gate scenario. -/
def c4s : Session := ⟨1, "Q", "Yes", "No", none, none, 0, 200, 0, true⟩

/-- Open session, registered card, no votes yet. -/
def c4db : DB := ⟨[c4s], [exCard], [], [], []⟩

/-- First session, open over [0, 500] only. -/
def c5s1 : Session := ⟨1, "Q1", "Yes", "No", none, none, 0, 500, 0, true⟩

/-- Second session, open over [900, 2000]: at time 1000 it has replaced
c5s1 as the active session. -/
def c5s2 : Session := ⟨2, "Q2", "Cats", "Dogs", none, none, 900, 2000, 900, true⟩

/-- Store where the active session changed after c5s1's window closed. -/
def c5db : DB := ⟨[c5s1, c5s2], [exCard], [], [], []⟩

/-- Store holding only the expired first session. -/
def c5dbOnly1 : DB := ⟨[c5s1], [exCard], [], [], []⟩

/-- A capability token issued at time 900 for card "U" and session 1. -/
def c5tok : TokenWire := make_token 0 900 ⟨"U", 1⟩

/-- Store with a single vote row for session 1. -/
def c6db : DB := ⟨[], [], [⟨1, 1, "A", 5⟩], [], []⟩

/-- Sheets environment with everything in working order. -/
def c7env : SheetsEnv := ⟨true, true, "creds.json", true, "boom"⟩

/-- Sheets environment where the gspread import failed. -/
def c9env : SheetsEnv := ⟨false, true, "creds.json", true, "boom"⟩

/-- A session with a third option defined ("Maybe"), so its keys are
A, B, C. -/
def c10s : Session := ⟨1, "Q", "Yes", "No", some "Maybe", none, 0, 100, 0, true⟩

/-- Store with votes for session 1 on options A, C and the undefined letter
Z, plus a vote for the non-existent session 2. -/
def c10db : DB :=
  ⟨[c10s], [], [⟨1, 1, "A", 5⟩, ⟨2, 1, "C", 6⟩, ⟨3, 1, "Z", 7⟩, ⟨4, 2, "A", 8⟩], [], []⟩

/-! ## Theorems -/

/-- C1: `record_vote` called on a pair with no tracker entry returns
success; a second sequential call for the same pair returns duplicate and
writes nothing; afterwards exactly one vote_tracker entry for the pair
exists and exactly one vote row was appended, carrying the first call's
option. -/
theorem C1_record_vote_success_then_duplicate (db : DB) (S : Nat)
    (U O1 O2 : String) (t1 t2 : Nat) (h : tracker_count db S U = 0) :
    (record_vote db S U O1 t1).1 = true ∧
    (record_vote (record_vote db S U O1 t1).2 S U O2 t2).1 = false ∧
    (record_vote (record_vote db S U O1 t1).2 S U O2 t2).2 =
      (record_vote db S U O1 t1).2 ∧
    tracker_count (record_vote (record_vote db S U O1 t1).2 S U O2 t2).2 S U = 1 ∧
    (record_vote (record_vote db S U O1 t1).2 S U O2 t2).2.votes =
      db.votes ++ [⟨db.votes.length + 1, S, O1, t1⟩] := by
  have hnil : db.vote_tracker.filter
      (fun e => e.session_id == S && e.card_uid == U) = [] :=
    List.length_eq_zero.mp h
  have hall : ∀ e ∈ db.vote_tracker, ¬((e.session_id == S && e.card_uid == U) = true) := by
    intro e he hpe
    have hmem : e ∈ db.vote_tracker.filter
        (fun e => e.session_id == S && e.card_uid == U) :=
      List.mem_filter.mpr ⟨he, hpe⟩
    rw [hnil] at hmem
    exact absurd hmem (List.not_mem_nil e)
  have hany : db.vote_tracker.any
      (fun e => e.session_id == S && e.card_uid == U) = false :=
    List.any_eq_false.mpr hall
  have h1 : record_vote db S U O1 t1 =
      (true, { db with
        vote_tracker := db.vote_tracker ++ [⟨db.vote_tracker.length + 1, S, U, t1⟩],
        votes := db.votes ++ [⟨db.votes.length + 1, S, O1, t1⟩] }) := by
    simp [record_vote, hany]
  have hp2 : ((db.vote_tracker ++
        [(⟨db.vote_tracker.length + 1, S, U, t1⟩ : TrackerEntry)]).any
      (fun e => e.session_id == S && e.card_uid == U)) = true := by
    simp
  have h2 : record_vote (record_vote db S U O1 t1).2 S U O2 t2 =
      (false, (record_vote db S U O1 t1).2) := by
    rw [h1]
    simp [record_vote, hp2]
  refine ⟨by rw [h1], by rw [h2], by rw [h2], ?_, by rw [h2, h1]⟩
  rw [h2, h1]
  simp [tracker_count, List.filter_append, hnil]

/-- C1 witness: the two-call scenario on an initially empty store. -/
theorem C1_record_vote_success_then_duplicate_witness :
    tracker_count emptyDB 1 "U" = 0 ∧
    ((record_vote emptyDB 1 "U" "A" 10).1 = true ∧
     (record_vote (record_vote emptyDB 1 "U" "A" 10).2 1 "U" "B" 20).1 = false ∧
     (record_vote (record_vote emptyDB 1 "U" "A" 10).2 1 "U" "B" 20).2 =
       (record_vote emptyDB 1 "U" "A" 10).2 ∧
     tracker_count (record_vote (record_vote emptyDB 1 "U" "A" 10).2 1 "U" "B" 20).2 1 "U" = 1 ∧
     (record_vote (record_vote emptyDB 1 "U" "A" 10).2 1 "U" "B" 20).2.votes =
       emptyDB.votes ++ [⟨emptyDB.votes.length + 1, 1, "A", 10⟩]) :=
  ⟨rfl, C1_record_vote_success_then_duplicate emptyDB 1 "U" "A" "B" 10 20 rfl⟩

/-- C2: verifying a token immediately after issuing it for (u, s) returns
exactly that payload; verifying the same token once more than
TOKEN_MAX_AGE seconds have elapsed since issuance returns None. -/
theorem C2_token_roundtrip_and_expiry (key now later : Nat) (u : String)
    (s : Nat) (h : later - now > TOKEN_MAX_AGE) :
    verify_token key TOKEN_MAX_AGE now (make_token key now ⟨u, s⟩) = some ⟨u, s⟩ ∧
    verify_token key TOKEN_MAX_AGE later (make_token key now ⟨u, s⟩) = none := by
  constructor
  · simp [verify_token, serializer_loads, make_token, TOKEN_MAX_AGE, Nat.sub_self]
  · simp [verify_token, serializer_loads, make_token, h]

/-- C2 witness: issue at time 5, verify at 5 and at 1000 (995 > 300 seconds
elapsed). -/
theorem C2_token_roundtrip_and_expiry_witness :
    1000 - 5 > TOKEN_MAX_AGE ∧
    (verify_token 0 TOKEN_MAX_AGE 5 (make_token 0 5 ⟨"u", 7⟩) = some ⟨"u", 7⟩ ∧
     verify_token 0 TOKEN_MAX_AGE 1000 (make_token 0 5 ⟨"u", 7⟩) = none) :=
  ⟨by decide, C2_token_roundtrip_and_expiry 0 5 1000 "u" 7 (by decide)⟩

/-- C8: token verification returns the uniform invalid outcome None — never
an exception (the model is a total function into Option, mirroring the
catch of BadSignature and SignatureExpired) and never a differentiated
error — for a malformed input, for a signed input whose signature does not
match, and for a signed input whose age exceeds the maximum. -/
theorem C8_verify_uniform_invalid (key maxAge now : Nat) (raw : String)
    (t1 t2 : SignedToken) (hsig : ¬(t1.sig = mkSig key t1.payload t1.ts))
    (hage : now - t2.ts > maxAge) :
    verify_token key maxAge now (TokenWire.malformed raw) = none ∧
    verify_token key maxAge now (TokenWire.signed t1) = none ∧
    verify_token key maxAge now (TokenWire.signed t2) = none := by
  refine ⟨rfl, ?_, ?_⟩
  · simp [verify_token, serializer_loads, hsig]
  · by_cases hs2 : t2.sig = mkSig key t2.payload t2.ts
    · simp [verify_token, serializer_loads, hs2, hage]
    · simp [verify_token, serializer_loads, hs2]

/-- C8 witness: a malformed blob, a zero signature that does not match, and
a token issued at time 0 verified at time 1000 with max age 300. -/
theorem C8_verify_uniform_invalid_witness :
    ¬((0 : Nat) = mkSig 0 ⟨"u", 1⟩ 1000) ∧
    1000 - 0 > 300 ∧
    (verify_token 0 300 1000 (TokenWire.malformed "zzz") = none ∧
     verify_token 0 300 1000 (TokenWire.signed ⟨⟨"u", 1⟩, 1000, 0⟩) = none ∧
     verify_token 0 300 1000 (TokenWire.signed ⟨⟨"u", 1⟩, 0, 5⟩) = none) :=
  ⟨by decide, by decide,
   C8_verify_uniform_invalid 0 300 1000 "zzz" ⟨⟨"u", 1⟩, 1000, 0⟩ ⟨⟨"u", 1⟩, 0, 5⟩
     (by decide) (by decide)⟩

/-- `maxById` returns none exactly on the empty list. -/
theorem maxById_eq_none_iff (l : List Session) : maxById l = none ↔ l = [] := by
  cases l with
  | nil => simp [maxById]
  | cons s rest =>
    simp only [maxById]
    constructor
    · intro h
      exfalso
      cases hr : maxById rest with
      | none => rw [hr] at h; simp at h
      | some t =>
        rw [hr] at h
        by_cases hlt : t.id < s.id
        · simp [hlt] at h
        · simp [hlt] at h
    · intro h
      exact absurd h (List.cons_ne_nil s rest)

/-- The row `maxById` picks belongs to the list. -/
theorem maxById_mem {l : List Session} : ∀ {s : Session}, maxById l = some s → s ∈ l := by
  induction l with
  | nil => intro s h; simp [maxById] at h
  | cons a rest ih =>
    intro s h
    simp only [maxById] at h
    cases hr : maxById rest with
    | none =>
      rw [hr] at h
      simp at h
      simp [h]
    | some t =>
      rw [hr] at h
      by_cases hlt : t.id < a.id
      · simp [hlt] at h
        simp [h]
      · simp [hlt] at h
        subst h
        exact List.mem_cons_of_mem a (ih hr)

/-- The row `maxById` picks has the largest id of the list. -/
theorem maxById_le {l : List Session} :
    ∀ {s : Session}, maxById l = some s → ∀ t ∈ l, t.id ≤ s.id := by
  induction l with
  | nil => intro s h; simp [maxById] at h
  | cons a rest ih =>
    intro s h t ht
    simp only [maxById] at h
    cases hr : maxById rest with
    | none =>
      rw [hr] at h
      simp at h
      subst h
      have hrest : rest = [] := (maxById_eq_none_iff rest).mp hr
      subst hrest
      rcases List.mem_singleton.mp ht with rfl
      exact Nat.le_refl _
    | some m =>
      rw [hr] at h
      by_cases hlt : m.id < a.id
      · simp [hlt] at h
        subst h
        rcases List.mem_cons.mp ht with rfl | htr
        · exact Nat.le_refl _
        · exact Nat.le_trans (ih hr t htr) (Nat.le_of_lt hlt)
      · simp [hlt] at h
        subst h
        rcases List.mem_cons.mp ht with rfl | htr
        · exact Nat.le_of_not_lt hlt
        · exact ih hr t htr

/-- C3: `get_active_session` returns None exactly when no stored session is
active with now inside its inclusive [start_time, end_time] window; any
session it returns is a qualifying one whose id is largest among all
qualifying sessions — the most recently created, since AUTOINCREMENT ids
grow with creation order — so overlap is resolved by a deterministic
tie-break, not an error. -/
theorem C3_active_session_resolution (db : DB) (now : Nat) :
    (get_active_session db now = none ↔
      ∀ s ∈ db.sessions, session_open s now = false) ∧
    (∀ s, get_active_session db now = some s →
      s ∈ db.sessions ∧ session_open s now = true ∧
      ∀ t ∈ db.sessions, session_open t now = true → t.id ≤ s.id) := by
  constructor
  · rw [get_active_session, maxById_eq_none_iff, List.filter_eq_nil_iff]
    constructor
    · intro h s hs
      exact Bool.not_eq_true _ |>.mp (h s hs)
    · intro h s hs
      rw [h s hs]
      simp
  · intro s hs
    have hmem := maxById_mem hs
    have hle := maxById_le hs
    refine ⟨(List.mem_filter.mp hmem).1, (List.mem_filter.mp hmem).2, ?_⟩
    intro t htmem htopen
    exact hle t (List.mem_filter.mpr ⟨htmem, htopen⟩)

/-- C3 witness: two overlapping active sessions at time 100 — the resolver
returns the most recently created one (id 2) and its id dominates the other
qualifier's. -/
theorem C3_active_session_resolution_witness :
    get_active_session c3db 100 = some c3sB ∧
    c3sB ∈ c3db.sessions ∧ session_open c3sB 100 = true ∧
    session_open c3sA 100 = true ∧ c3sA.id ≤ c3sB.id ∧
    get_active_session emptyDB 100 = none :=
  ⟨by decide,
   ((C3_active_session_resolution c3db 100).2 c3sB (by decide)).1,
   ((C3_active_session_resolution c3db 100).2 c3sB (by decide)).2.1,
   by decide,
   ((C3_active_session_resolution c3db 100).2 c3sB (by decide)).2.2 c3sA (by decide) (by decide),
   (C3_active_session_resolution emptyDB 100).1.mpr (by decide)⟩

/-- C4: the scan gate evaluates its checks in the fixed order session-open,
registered, not-voted, short-circuiting on the first failure: with no open
session the emitted rejection is always "voting not open" whatever the UID;
when all gates pass the scan emits the raw-scan event plus exactly one
authorization event carrying the redemption token; and the store — in
particular vote_tracker — is never written. -/
theorem C4_card_gate_order (db : DB) (key now : Nat) (uid : String) :
    (process_scan db key now uid).2 = db ∧
    (get_active_session db now = none →
      (process_scan db key now uid).1 =
        [Event.card_scan_raw uid (card_exists db uid),
         Event.card_error "Voting is not open right now."]) ∧
    (∀ s, get_active_session db now = some s → card_is_registered db uid = false →
      (process_scan db key now uid).1 =
        [Event.card_scan_raw uid (card_exists db uid),
         Event.card_error "Card not registered. Please see an administrator."]) ∧
    (∀ s, get_active_session db now = some s → card_is_registered db uid = true →
      card_has_voted db uid s.id = false →
      (process_scan db key now uid).1 =
        [Event.card_scan_raw uid (card_exists db uid),
         Event.card_valid (make_token key now ⟨uid, s.id⟩)]) := by
  refine ⟨?_, ?_, ?_, ?_⟩
  · rw [process_scan]
    cases hact : get_active_session db now with
    | none => rfl
    | some s =>
      simp only []
      split
      · rfl
      · split <;> rfl
  · intro h
    simp [process_scan, h]
  · intro s hs hreg
    simp [process_scan, hs, hreg]
  · intro s hs hreg hvote
    simp [process_scan, hs, hreg, hvote]

/-- C4 witness: on an empty store no session is open, so an unregistered
UID is rejected with "voting not open"; on the open-session store the
registered, not-yet-voted card gets exactly the raw-scan and authorization
events, and both scans leave the store untouched. -/
theorem C4_card_gate_order_witness :
    (process_scan emptyDB 0 100 "X").2 = emptyDB ∧
    get_active_session emptyDB 100 = none ∧
    (process_scan emptyDB 0 100 "X").1 =
      [Event.card_scan_raw "X" (card_exists emptyDB "X"),
       Event.card_error "Voting is not open right now."] ∧
    (process_scan c4db 0 100 "U").2 = c4db ∧
    (process_scan c4db 0 100 "U").1 =
      [Event.card_scan_raw "U" (card_exists c4db "U"),
       Event.card_valid (make_token 0 100 ⟨"U", c4s.id⟩)] :=
  ⟨(C4_card_gate_order emptyDB 0 100 "X").1,
   by decide,
   (C4_card_gate_order emptyDB 0 100 "X").2.1 (by decide),
   (C4_card_gate_order c4db 0 100 "U").1,
   (C4_card_gate_order c4db 0 100 "U").2.2.2 c4s (by decide) (by decide) (by decide)⟩

/-- C5 counterexample: the active session changed between issuance and
redemption (the token is bound to session 1 while session 2 is now the
active one), the token is still within its age window, and yet the final
vote-submission step commits a vote for session 1 — `submit_vote` looks the
session up by the token's id and never consults the active session, so the
claim that the full redemption path rejects stale tokens is false. -/
theorem C5_counterexample_stale_token_commits :
    get_active_session c5db 1000 = some c5s2 ∧
    c5s2.id ≠ 1 ∧
    verify_token 0 TOKEN_MAX_AGE 1000 c5tok = some ⟨"U", 1⟩ ∧
    (submit_vote c5db 0 TOKEN_MAX_AGE 1000 (some c5tok) "A").1 = Page.thankyou 1 ∧
    (submit_vote c5db 0 TOKEN_MAX_AGE 1000 (some c5tok) "A").2.votes =
      [⟨1, 1, "A", 1000⟩] := by
  refine ⟨by decide, by decide, by decide, ?_, ?_⟩ <;> rfl

/-- C5 amended: a stale capability token (session changed between issuance
and redemption) is rejected at the ballot-render step — the vote route
redirects to session_changed whenever the token's session id is not the
currently active session's — but the final vote-submission step performs no
staleness check: it commits the vote for the token's bound session whenever
that session row still exists, the chosen option is defined, and the pair
has not yet voted. -/
theorem C5_stale_rejected_at_render_only (db : DB) (key maxAge now : Nat)
    (tok : TokenWire) (data : TokenPayload)
    (hv : verify_token key maxAge now tok = some data) :
    (get_active_session db now = none →
      vote_route db key maxAge now tok = Page.errorPage "session_changed") ∧
    (∀ a, get_active_session db now = some a → a.id ≠ data.session_id →
      vote_route db key maxAge now tok = Page.errorPage "session_changed") ∧
    (∀ vs ch, get_session db data.session_id = some vs →
      (str_upper ch == "") = false →
      ((build_options vs).map (fun kv => kv.1)).contains (str_upper ch) = true →
      card_has_voted db data.uid data.session_id = false →
      (submit_vote db key maxAge now (some tok) ch).1 = Page.thankyou data.session_id ∧
      (submit_vote db key maxAge now (some tok) ch).2.votes =
        db.votes ++ [⟨db.votes.length + 1, data.session_id, str_upper ch, now⟩]) := by
  refine ⟨?_, ?_, ?_⟩
  · intro h
    simp [vote_route, hv, h]
  · intro a ha hne
    have hbeq : (a.id == data.session_id) = false := by
      simp [hne]
    simp [vote_route, hv, ha, hbeq]
  · intro vs ch hvs hne hopt htv
    have hrv : record_vote db data.session_id data.uid (str_upper ch) now =
        (true, { db with
          vote_tracker := db.vote_tracker ++
            [⟨db.vote_tracker.length + 1, data.session_id, data.uid, now⟩],
          votes := db.votes ++
            [⟨db.votes.length + 1, data.session_id, str_upper ch, now⟩] }) := by
      rw [card_has_voted] at htv
      simp [record_vote, htv]
    simp at hopt hne
    constructor <;> simp [submit_vote, hv, hvs, hne, hopt, hrv]

/-- C5 amended witness: with only the expired session stored, rendering the
ballot with the stale token is rejected; with the second session active,
rendering is likewise rejected because the active id (2) differs from the
token's (1); yet submitting the same stale token commits a vote for
session 1. -/
theorem C5_stale_rejected_at_render_only_witness :
    vote_route c5dbOnly1 0 TOKEN_MAX_AGE 1000 c5tok = Page.errorPage "session_changed" ∧
    vote_route c5db 0 TOKEN_MAX_AGE 1000 c5tok = Page.errorPage "session_changed" ∧
    (submit_vote c5db 0 TOKEN_MAX_AGE 1000 (some c5tok) "A").1 = Page.thankyou 1 ∧
    (submit_vote c5db 0 TOKEN_MAX_AGE 1000 (some c5tok) "A").2.votes =
      c5db.votes ++ [⟨c5db.votes.length + 1, 1, str_upper "A", 1000⟩] :=
  ⟨(C5_stale_rejected_at_render_only c5dbOnly1 0 TOKEN_MAX_AGE 1000 c5tok ⟨"U", 1⟩
      (by decide)).1 (by decide),
   (C5_stale_rejected_at_render_only c5db 0 TOKEN_MAX_AGE 1000 c5tok ⟨"U", 1⟩
      (by decide)).2.1 c5s2 (by decide) (by decide),
   ((C5_stale_rejected_at_render_only c5db 0 TOKEN_MAX_AGE 1000 c5tok ⟨"U", 1⟩
      (by decide)).2.2 c5s1 "A" (by decide) (by decide) (by decide) (by decide)).1,
   ((C5_stale_rejected_at_render_only c5db 0 TOKEN_MAX_AGE 1000 c5tok ⟨"U", 1⟩
      (by decide)).2.2 c5s1 "A" (by decide) (by decide) (by decide) (by decide)).2⟩

/-- Membership in the insertion step of the voted_at sort. -/
theorem mem_insertByVotedAt {v w : Vote} {l : List Vote} :
    v ∈ insertByVotedAt w l ↔ v = w ∨ v ∈ l := by
  induction l with
  | nil => simp [insertByVotedAt]
  | cons x rest ih =>
    simp only [insertByVotedAt]
    by_cases hle : w.voted_at ≤ x.voted_at
    · rw [if_pos hle]
      simp [List.mem_cons]
    · rw [if_neg hle]
      simp [List.mem_cons, ih]
      tauto

/-- Sorting by voted_at preserves membership. -/
theorem mem_sortByVotedAt {v : Vote} {l : List Vote} :
    v ∈ sortByVotedAt l ↔ v ∈ l := by
  induction l with
  | nil => simp [sortByVotedAt]
  | cons x rest ih => simp [sortByVotedAt, mem_insertByVotedAt, ih]

/-- C6: the votes table has no UID column (the `Vote` row type is exactly
id, session_id, option, voted_at); every element of the export dump is the
(voted_at, option) projection of a stored vote row of that session; and the
only write `record_vote` ever makes to the votes table appends a single row
built from the session id, the option letter and the timestamp — no
credential UID, so tallies and exports are not traceable to a card. -/
theorem C6_votes_hold_no_uid (db : DB) (sid S : Nat) (U O : String) (t : Nat) :
    (∀ p ∈ get_all_votes_for_export db sid,
      p ∈ (db.votes.filter (fun v => v.session_id == sid)).map
        (fun v => (v.voted_at, v.voteOption))) ∧
    ((record_vote db S U O t).2.votes = db.votes ∨
      (record_vote db S U O t).2.votes =
        db.votes ++ [⟨db.votes.length + 1, S, O, t⟩]) := by
  constructor
  · intro p hp
    simp only [get_all_votes_for_export, List.mem_map] at hp
    obtain ⟨v, hv, rfl⟩ := hp
    rw [mem_sortByVotedAt] at hv
    exact List.mem_map.mpr ⟨v, hv, rfl⟩
  · rw [record_vote]
    split
    · left; rfl
    · right; rfl

/-- C6 witness: the pair (5, "A") exported for session 1 is the projection
of the stored vote row, and recording a vote appends exactly the anonymized
row. -/
theorem C6_votes_hold_no_uid_witness :
    ((5 : Nat), "A") ∈ get_all_votes_for_export c6db 1 ∧
    ((5 : Nat), "A") ∈ (c6db.votes.filter (fun v => v.session_id == 1)).map
      (fun v => (v.voted_at, v.voteOption)) ∧
    ((record_vote c6db 1 "U" "B" 9).2.votes = c6db.votes ∨
      (record_vote c6db 1 "U" "B" 9).2.votes =
        c6db.votes ++ [⟨c6db.votes.length + 1, 1, "B", 9⟩]) :=
  ⟨by decide,
   (C6_votes_hold_no_uid c6db 1 1 "U" "B" 9).1 (5, "A") (by decide),
   (C6_votes_hold_no_uid c6db 1 1 "U" "B" 9).2⟩

/-- C7: an automatic sync less than SHEETS_SYNC_DEBOUNCE seconds after the
previous sync attempt performs no external write (attempt count 0) and
reports Debounced; a blocking sync resets the last-sync timestamp to zero
before running (it is literally `_do_sync` from the zeroed state, and
leaves it zeroed); hence an automatic sync right after a blocking one is
not suppressed — it passes the debounce gate and stamps the current time. -/
theorem C7_debounce_and_blocking_reset (st : SyncState) (env : SheetsEnv)
    (db : DB) (sid now now1 now2 : Nat) (hav : env.sheetsAvailable = true) :
    (now - st.lastSyncTime < SHEETS_SYNC_DEBOUNCE →
      sync_to_sheets st env db sid now =
        (st, ⟨false, some "Debounced", none⟩, 0)) ∧
    (sync_to_sheets_blocking st env db sid now1 = do_sync ⟨0⟩ env db sid now1 true) ∧
    (sync_to_sheets_blocking st env db sid now1).1 = ⟨0⟩ ∧
    (SHEETS_SYNC_DEBOUNCE ≤ now2 →
      (sync_to_sheets (sync_to_sheets_blocking st env db sid now1).1
        env db sid now2).1 = ⟨now2⟩) := by
  have hb : (sync_to_sheets_blocking st env db sid now1).1 = ⟨0⟩ := by
    cases hpw : perform_sheet_writes env db sid <;>
      simp only [sync_to_sheets_blocking, do_sync] <;>
      split_ifs <;> simp [hpw]
  refine ⟨?_, rfl, hb, ?_⟩
  · intro h
    simp [sync_to_sheets, do_sync, hav, h]
  · intro h2
    rw [hb]
    have hnlt : ¬ now2 < SHEETS_SYNC_DEBOUNCE := Nat.not_lt.mpr h2
    cases hpw : perform_sheet_writes env db sid <;>
      simp only [sync_to_sheets, do_sync] <;>
      split_ifs <;> simp_all [hpw] <;> omega

/-- C7 witness: last sync at 100, automatic retry at 105 (5 seconds later)
is debounced with no write attempt; a blocking sync leaves the timestamp at
0; the automatic sync at 250 then passes the gate and stamps 250. -/
theorem C7_debounce_and_blocking_reset_witness :
    c7env.sheetsAvailable = true ∧
    (105 : Nat) - (⟨100⟩ : SyncState).lastSyncTime < SHEETS_SYNC_DEBOUNCE ∧
    SHEETS_SYNC_DEBOUNCE ≤ (250 : Nat) ∧
    sync_to_sheets ⟨100⟩ c7env emptyDB 1 105 =
      (⟨100⟩, ⟨false, some "Debounced", none⟩, 0) ∧
    (sync_to_sheets_blocking ⟨100⟩ c7env emptyDB 1 200).1 = ⟨0⟩ ∧
    (sync_to_sheets (sync_to_sheets_blocking ⟨100⟩ c7env emptyDB 1 200).1
      c7env emptyDB 1 250).1 = ⟨250⟩ :=
  ⟨rfl, by decide, by decide,
   (C7_debounce_and_blocking_reset ⟨100⟩ c7env emptyDB 1 105 200 250 rfl).1 (by decide),
   (C7_debounce_and_blocking_reset ⟨100⟩ c7env emptyDB 1 105 200 250 rfl).2.2.1,
   (C7_debounce_and_blocking_reset ⟨100⟩ c7env emptyDB 1 105 200 250 rfl).2.2.2
     (by decide)⟩

/-- C9: under every failure mode — gspread library unavailable, sync
disabled in settings, spreadsheet id not configured, credentials file
missing, or external service unreachable — a (forced, administrator-path)
sync call returns a structured failure result with a reason instead of
raising: the model is a total function whose exception-prone region is the
caught `perform_sheet_writes`. -/
theorem C9_sync_failure_modes_structured (st : SyncState) (env : SheetsEnv)
    (db : DB) (sid now : Nat) (force : Bool)
    (h : env.sheetsAvailable = false ∨
         (get_setting db "sheets_enabled" == some "1") = false ∨
         ((get_setting db "sheets_spreadsheet_id").getD "" == "") = true ∨
         env.credentialsExist = false ∨
         env.reachable = false) :
    (do_sync st env db sid now force).2.1.success = false ∧
    ((do_sync st env db sid now force).2.1.error).isSome = true := by
  simp only [do_sync]
  split_ifs <;> simp_all [perform_sheet_writes]

/-- C9 witness: the gspread import failed; the forced sync reports a
structured failure. -/
theorem C9_sync_failure_modes_structured_witness :
    (c9env.sheetsAvailable = false ∨
     (get_setting emptyDB "sheets_enabled" == some "1") = false ∨
     ((get_setting emptyDB "sheets_spreadsheet_id").getD "" == "") = true ∨
     c9env.credentialsExist = false ∨
     c9env.reachable = false) ∧
    ((do_sync ⟨0⟩ c9env emptyDB 1 100 true).2.1.success = false ∧
     ((do_sync ⟨0⟩ c9env emptyDB 1 100 true).2.1.error).isSome = true) :=
  ⟨Or.inl rfl, C9_sync_failure_modes_structured ⟨0⟩ c9env emptyDB 1 100 true (Or.inl rfl)⟩

/-- C10: `get_vote_counts` returns the empty map for a non-existent
session; otherwise its keys are exactly the session's defined option keys
(A and B always, C/D only when their labels are set), and each entry
carries that option's label and the count of exactly the vote rows with
that option letter (zero-vote options included, undefined letters counted
nowhere). -/
theorem C10_vote_counts_shape (db : DB) (sid : Nat) :
    (get_session db sid = none → get_vote_counts db sid = []) ∧
    (∀ s, get_session db sid = some s →
      (get_vote_counts db sid).map (fun e => e.1) = defined_options s ∧
      ∀ e ∈ get_vote_counts db sid,
        e.2.1 = option_label s e.1 ∧ e.2.2 = count_option db sid e.1) := by
  constructor
  · intro h
    simp [get_vote_counts, h]
  · intro s hs
    constructor
    · simp only [get_vote_counts, hs, List.map_map]
      exact List.map_id' _
    · intro e he
      simp only [get_vote_counts, hs, List.mem_map] at he
      obtain ⟨k, hk, rfl⟩ := he
      exact ⟨rfl, rfl⟩

/-- C10 witness: a session with options A, B, C gets exactly those keys;
the C entry carries label "Maybe" and count 1 (the vote on the undefined
letter Z and the vote for another session are not counted); a missing
session id yields the empty map. -/
theorem C10_vote_counts_shape_witness :
    get_session c10db 1 = some c10s ∧
    ((get_vote_counts c10db 1).map (fun e => e.1) = defined_options c10s ∧
     ("C", "Maybe", 1) ∈ get_vote_counts c10db 1 ∧
     (("C", "Maybe", 1) : String × String × Nat).2.1 = option_label c10s "C" ∧
     (("C", "Maybe", 1) : String × String × Nat).2.2 = count_option c10db 1 "C") ∧
    get_vote_counts c10db 2 = [] :=
  ⟨by decide,
   ⟨((C10_vote_counts_shape c10db 1).2 c10s (by decide)).1,
    by decide,
    (((C10_vote_counts_shape c10db 1).2 c10s (by decide)).2 ("C", "Maybe", 1)
      (by decide)).1,
    (((C10_vote_counts_shape c10db 1).2 c10s (by decide)).2 ("C", "Maybe", 1)
      (by decide)).2⟩,
   (C10_vote_counts_shape c10db 2).1 (by decide)⟩

end Voting
